import Mathlib

set_option maxRecDepth 4096

/-!
Verification of the Gopher content server (`gopher.py`).

The development shallowly embeds the program: the page-building helpers
(`text_page`, `menu_page`), the module-level content store `PAGES`, and the
per-connection request handler `GopherRequestHandler.handle`.  Strings are
modelled by Lean `String` (a wrapper around `List Char`), bytes by `Nat`
(values 0–255), and fallible library operations (`str.format`, `bytes.decode`)
by `Except Unit`-valued functions.
-/

/-- The line terminator used throughout the program (`CRLF = "\r\n"`). -/
def CRLF : String := "\r\n"

/-- One line of a menu response (`@dataclass(frozen=True) class MenuItem`). -/
structure MenuItem where
  item_type : String
  display : String
  selector : String
deriving DecidableEq

/-- Python `sep.join(lines)`: the elements of `lines` joined by `sep`
(empty string for the empty list). -/
def joinSep (sep : String) : List String → String
  | [] => ""
  | [x] => x
  | x :: xs => x ++ sep ++ joinSep sep xs

/-- `text_page(*lines)`: `CRLF.join(lines) + CRLF`. -/
def text_page (lines : List String) : String :=
  joinSep CRLF lines ++ CRLF

/-- `menu_page(*items, host_placeholder="{host}", port_placeholder="{port}")`:
one rendered line per item
(`f"{item.item_type}{item.display}\t{item.selector}\t{host_placeholder}\t{port_placeholder}"`),
joined by `CRLF`, plus a trailing `CRLF`. -/
def menu_page (items : List MenuItem)
    (host_placeholder : String := "{host}") (port_placeholder : String := "{port}") : String :=
  joinSep CRLF (items.map fun item =>
    item.item_type ++ item.display ++ "\t" ++ item.selector ++ "\t" ++
      host_placeholder ++ "\t" ++ port_placeholder) ++ CRLF

/-- The rendered line of one menu item under the default placeholders,
used to state the `menu_page` rendering contract. -/
def menuLine (item : MenuItem) : String :=
  item.item_type ++ item.display ++ "\t" ++ item.selector ++ "\t" ++
    "{host}" ++ "\t" ++ "{port}"

/-- Items of the root menu (`PAGES[""]`). -/
def rootItems : List MenuItem :=
  [⟨"i", "Welcome to the Mellea Gopher Capsule", "fake"⟩,
   ⟨"i", "A compact learning path for model-centered development.", "fake"⟩,
   ⟨"1", "Start with the tutorial", "/tutorial"⟩,
   ⟨"1", "Rewrite guide: overview", "/rewrite"⟩,
   ⟨"1", "Rewrite guide: strategy", "/rewrite/strategy"⟩,
   ⟨"1", "Rewrite guide: iterative workflow", "/rewrite/iteration"⟩,
   ⟨"1", "Rewrite guide: evaluation", "/rewrite/evaluation"⟩,
   ⟨"0", "About this capsule", "/about"⟩]

/-- Items of the tutorial menu (`PAGES["/tutorial"]`). -/
def tutorialItems : List MenuItem :=
  [⟨"i", "Tutorial Path", "fake"⟩,
   ⟨"0", "1) Define the outcome and user experience", "/tutorial/outcome"⟩,
   ⟨"0", "2) Model the task as constrained generation", "/tutorial/constrained-generation"⟩,
   ⟨"0", "3) Add tools and retrieval where certainty matters", "/tutorial/tooling"⟩,
   ⟨"0", "4) Close the loop with evaluation and revision", "/tutorial/evaluation-loop"⟩,
   ⟨"1", "Return to home", "/"⟩]

/-- Items of the rewrite menu (`PAGES["/rewrite"]`). -/
def rewriteItems : List MenuItem :=
  [⟨"i", "Rewrite Guide", "fake"⟩,
   ⟨"0", "Overview: what rewriting is for", "/rewrite/overview"⟩,
   ⟨"0", "Strategy: preserve intent, improve expression", "/rewrite/strategy"⟩,
   ⟨"0", "Iteration: draft, critique, refine", "/rewrite/iteration"⟩,
   ⟨"0", "Evaluation: style, meaning, and risk checks", "/rewrite/evaluation"⟩,
   ⟨"1", "Return to home", "/"⟩]

/-- The content store `PAGES: dict[str, str]`, as an association list in the
source's insertion order (all keys are distinct, so lookup agrees with the
Python dict). -/
def PAGES : List (String × String) :=
  [("", menu_page rootItems),
   ("/about", text_page
     ["Mellea Gopher Capsule",
      "",
      "This capsule is inspired by Mellea tutorial and rewrite docs.",
      "It focuses on practical habits for building with language models:",
      "- design with explicit intent",
      "- keep context and prompts structured",
      "- iterate with measurable quality checks",
      "",
      "Navigate back to selector / for the main menu."]),
   ("/tutorial", menu_page tutorialItems),
   ("/tutorial/outcome", text_page
     ["Tutorial Step 1: Define the outcome",
      "",
      "Begin with a concrete artifact and a quality bar.",
      "Examples: a migration plan, a product brief, or a code patch.",
      "",
      "State what the user needs in explicit terms:",
      "- audience and constraints",
      "- acceptable format",
      "- what \x27done\x27 means",
      "",
      "Good prompts start with sharp intent, not verbose prose."]),
   ("/tutorial/constrained-generation", text_page
     ["Tutorial Step 2: Constrained generation",
      "",
      "Treat prompting as interface design.",
      "Give the model a frame that narrows ambiguity:",
      "- role and scope",
      "- required structure and fields",
      "- boundaries (what to avoid)",
      "",
      "Use small, testable output contracts to keep results stable."]),
   ("/tutorial/tooling", text_page
     ["Tutorial Step 3: Tools and retrieval",
      "",
      "Use models for synthesis, tools for facts.",
      "When precision matters, provide grounded context from:",
      "- local code and docs",
      "- APIs or databases",
      "- deterministic scripts",
      "",
      "This split reduces hallucinations and improves reproducibility."]),
   ("/tutorial/evaluation-loop", text_page
     ["Tutorial Step 4: Evaluation loop",
      "",
      "Every generation should be followed by an explicit check:",
      "- does it satisfy required structure?",
      "- does it pass tests or policy checks?",
      "- does it remain understandable to humans?",
      "",
      "Use failures as signals to improve prompts, data, or tooling."]),
   ("/rewrite", menu_page rewriteItems),
   ("/rewrite/overview", text_page
     ["Rewrite Overview",
      "",
      "Rewriting is a controlled transformation.",
      "The goal is not novelty; the goal is clarity, fit, and fidelity.",
      "",
      "A useful rewrite process separates:",
      "- intent (must keep)",
      "- tone/format (may adapt)",
      "- constraints (must obey)"]),
   ("/rewrite/strategy", text_page
     ["Rewrite Strategy",
      "",
      "Before editing text, extract a rewrite brief:",
      "- source purpose",
      "- target audience",
      "- hard constraints",
      "- preferred voice",
      "",
      "Then rewrite with traceability:",
      "- preserve key claims",
      "- compress redundancy",
      "- improve structure and flow",
      "",
      "If constraints conflict, ask for prioritization."]),
   ("/rewrite/iteration", text_page
     ["Rewrite Iteration",
      "",
      "Use short cycles:",
      "1. Produce a focused draft.",
      "2. Critique against explicit criteria.",
      "3. Apply only justified revisions.",
      "",
      "Iteration beats one-shot perfection for complex writing tasks."]),
   ("/rewrite/evaluation", text_page
     ["Rewrite Evaluation",
      "",
      "Evaluate rewrites on three axes:",
      "- Fidelity: did core meaning stay intact?",
      "- Readability: is it easier to parse and act on?",
      "- Compliance: does it meet style and policy requirements?",
      "",
      "Prefer lightweight rubrics with pass/fail thresholds."])]

/-- The three menu pages of the store, with the item lists they are built
from (every other entry of `PAGES` is a `text_page`). -/
def MENUS : List (String × List MenuItem) :=
  [("", rootItems), ("/tutorial", tutorialItems), ("/rewrite", rewriteItems)]

/-- `PAGES.get(selector)`: exact-match dictionary lookup. -/
def storeGet (pages : List (String × String)) (k : String) : Option String :=
  List.lookup k pages

/-- The whitespace characters stripped by Python `str.strip()`, restricted to
the ASCII range (the program's selectors and pages are ASCII; `str.strip`
additionally strips non-ASCII Unicode space code points, which never occur
here). -/
def pyIsSpace (c : Char) : Bool :=
  c = ' ' || c = '\t' || c = '\n' || c = '\r' || c = '\x0b' || c = '\x0c'

/-- Python `s.strip()`: drop leading and trailing whitespace. -/
def pyStrip (s : String) : String :=
  String.mk (((s.data.dropWhile pyIsSpace).reverse.dropWhile pyIsSpace).reverse)

/-- The selector normalization step of `handle`:
`if selector in ("", "/"): selector = ""`. -/
def normalizeSel (s : String) : String :=
  if s = "" ∨ s = "/" then "" else s

/-- The synthesized not-found body of `handle` (the `payload is None` branch):
`text_page("404 - selector not found", "", f"Requested selector: {selector or '/'}",
"Return to '/' for the main menu.")`.  Python's `selector or '/'` yields `'/'`
exactly when `selector` is the empty string. -/
def notFoundPage (selector : String) : String :=
  text_page
    ["404 - selector not found",
     "",
     "Requested selector: " ++ (if selector = "" then "/" else selector),
     "Return to \x27/\x27 for the main menu."]

/-- Core of CPython `str.format(host=host, port=port)` as used on the page
payloads: a scan over the format string in which `{{` and `}}` are brace
escapes, the fields `{host}` and `{port}` are replaced by the given
replacement strings (replacements are not rescanned), any other field raises
(`KeyError`/`IndexError`), and an unmatched `{` or single `}` raises
(`ValueError`).  The first argument is `none` while scanning literal text and
`some acc` while inside a replacement field, `acc` holding the reversed field
name read so far.  (Conversion/format-spec suffixes such as `{host!r}` or
`{host:>5}` are not modelled; no page and no theorem below uses them.) -/
def pyFormatAux (host portS : String) : Option (List Char) → List Char → Except Unit (List Char)
  | none, [] => .ok []
  | none, '{' :: '{' :: rest => (pyFormatAux host portS none rest).map (fun cs => '{' :: cs)
  | none, '{' :: rest => pyFormatAux host portS (some []) rest
  | none, '}' :: '}' :: rest => (pyFormatAux host portS none rest).map (fun cs => '}' :: cs)
  | none, '}' :: _ => .error ()
  | none, c :: rest => (pyFormatAux host portS none rest).map (fun cs => c :: cs)
  | some _, [] => .error ()
  | some acc, '}' :: rest =>
    if acc.reverse = ("host").data then
      (pyFormatAux host portS none rest).map (fun cs => host.data ++ cs)
    else if acc.reverse = ("port").data then
      (pyFormatAux host portS none rest).map (fun cs => portS.data ++ cs)
    else .error ()
  | some acc, c :: rest => pyFormatAux host portS (some (c :: acc)) rest

/-- `payload.format(host=host, port=port)` (with `port` already converted to
its decimal string, as `str.format` does for an `int` argument). -/
def pyFormat (host portS : String) (s : String) : Except Unit String :=
  (pyFormatAux host portS none s.data).map String.mk

/-- Boolean substring-occurrence test on character lists (`needle in haystack`). -/
def occursIn (pat : List Char) : List Char → Bool
  | [] => pat.isEmpty
  | c :: rest => pat.isPrefixOf (c :: rest) || occursIn pat rest

/-- Substring occurrence on strings. -/
def strOccurs (pat s : String) : Bool :=
  occursIn pat.data s.data

/-- Python `s.endswith(suffix)`. -/
def strEndsWith (suffix s : String) : Bool :=
  suffix.data.isSuffixOf s.data

/-- A string free of brace characters (such a string passes through
`str.format` unchanged). -/
def noBrace (s : String) : Bool :=
  s.data.all fun c => !(c == '{' || c == '}')

/-- The replacement character U+FFFD substituted for invalid sequences by
`bytes.decode("utf-8", errors="replace")`. -/
def replChar : Char := Char.ofNat 0xFFFD

/-- Valid UTF-8 continuation byte (`0x80–0xBF`). -/
def isCont (b : Nat) : Bool := 0x80 ≤ b && b ≤ 0xBF

/-- Valid second byte of a three-byte UTF-8 sequence with lead `b`
(excludes overlong encodings and surrogates). -/
def cont2ok (b c : Nat) : Bool :=
  if b = 0xE0 then 0xA0 ≤ c && c ≤ 0xBF
  else if b = 0xED then 0x80 ≤ c && c ≤ 0x9F
  else isCont c

/-- Valid second byte of a four-byte UTF-8 sequence with lead `b`
(excludes overlong encodings and code points above U+10FFFF). -/
def cont3ok (b c : Nat) : Bool :=
  if b = 0xF0 then 0x90 ≤ c && c ≤ 0xBF
  else if b = 0xF4 then 0x80 ≤ c && c ≤ 0x8F
  else isCont c

/-- One step of CPython's UTF-8 decoder (each `Nat` a byte value; any value
outside 0–255 behaves like an invalid byte): decode one code point starting
at lead byte `b` with following input `rest`, returning the decoded
character and the remaining input.  With `replaceErrors = false` (strict
decoding, `errors="strict"`) any ill-formed sequence is an error.  With
`replaceErrors = true` (`errors="replace"`) the maximal ill-formed subpart
at the current position is consumed, U+FFFD is produced in its place, and
decoding resumes at the first byte that could start a new sequence, so a
step never fails. -/
def decodeStep (replaceErrors : Bool) (b : Nat) (rest : List Nat) :
    Except Unit (Char × List Nat) :=
  if b < 0x80 then .ok (Char.ofNat b, rest)
  else if b < 0xC2 then
    if replaceErrors then .ok (replChar, rest) else .error ()
  else if b ≤ 0xDF then
    match rest with
    | [] => if replaceErrors then .ok (replChar, []) else .error ()
    | c1 :: rest1 =>
      if isCont c1 then
        .ok (Char.ofNat ((b - 0xC0) * 0x40 + (c1 - 0x80)), rest1)
      else if replaceErrors then .ok (replChar, c1 :: rest1) else .error ()
  else if b ≤ 0xEF then
    match rest with
    | [] => if replaceErrors then .ok (replChar, []) else .error ()
    | c1 :: rest1 =>
      if cont2ok b c1 then
        match rest1 with
        | [] => if replaceErrors then .ok (replChar, []) else .error ()
        | c2 :: rest2 =>
          if isCont c2 then
            .ok (Char.ofNat ((b - 0xE0) * 0x1000 + (c1 - 0x80) * 0x40 + (c2 - 0x80)), rest2)
          else if replaceErrors then .ok (replChar, c2 :: rest2) else .error ()
      else if replaceErrors then .ok (replChar, c1 :: rest1) else .error ()
  else if b ≤ 0xF4 then
    match rest with
    | [] => if replaceErrors then .ok (replChar, []) else .error ()
    | c1 :: rest1 =>
      if cont3ok b c1 then
        match rest1 with
        | [] => if replaceErrors then .ok (replChar, []) else .error ()
        | c2 :: rest2 =>
          if isCont c2 then
            match rest2 with
            | [] => if replaceErrors then .ok (replChar, []) else .error ()
            | c3 :: rest3 =>
              if isCont c3 then
                .ok (Char.ofNat ((b - 0xF0) * 0x40000 + (c1 - 0x80) * 0x1000 +
                  (c2 - 0x80) * 0x40 + (c3 - 0x80)), rest3)
              else if replaceErrors then .ok (replChar, c3 :: rest3) else .error ()
          else if replaceErrors then .ok (replChar, c2 :: rest2) else .error ()
      else if replaceErrors then .ok (replChar, c1 :: rest1) else .error ()
  else
    if replaceErrors then .ok (replChar, rest) else .error ()

/-- The decoding loop: apply `decodeStep` until the input is exhausted.
Each step consumes at least the lead byte, so a fuel equal to the input
length is always sufficient and the `0, _ :: _` fallback is never reached
from `decodeUtf8`. -/
def decodeUtf8Fuel (replaceErrors : Bool) : Nat → List Nat → Except Unit (List Char)
  | _, [] => .ok []
  | 0, _ :: _ => .ok []
  | Nat.succ n, b :: rest =>
    match decodeStep replaceErrors b rest with
    | .error e => .error e
    | .ok (c, rest2) => (decodeUtf8Fuel replaceErrors n rest2).map (fun cs => c :: cs)

/-- `data.decode("utf-8", errors=...)`: `replaceErrors = true` is
`errors="replace"` (the mode `handle` uses), `false` is `errors="strict"`.
The fuel of `decodeUtf8Fuel` is instantiated with the input length; every
step of the scan consumes at least one byte, so this fuel is always
sufficient and the `0, _ :: _` fallback of `decodeUtf8Fuel` is never
reached. -/
def decodeUtf8 (replaceErrors : Bool) (bs : List Nat) : Except Unit String :=
  (decodeUtf8Fuel replaceErrors bs.length bs).map String.mk

/-- `GopherRequestHandler.handle` from the decoded-and-stripped selector on,
over an explicit content store:
normalize the selector, look it up (`PAGES.get`), fall back to the
synthesized not-found page, substitute host/port placeholders
(`payload.format(host=host, port=port)`), and append the terminator line
unless the body already ends with `".\r\n"`
(`if not body.endswith(f".{CRLF}"): body = f"{body}.{CRLF}"`). -/
def handleSel (pages : List (String × String)) (host : String) (port : Nat)
    (selRaw : String) : Except Unit String :=
  let selector := normalizeSel selRaw
  let payload := (storeGet pages selector).getD (notFoundPage selector)
  (pyFormat host (toString port) payload).map fun body =>
    if strEndsWith ("." ++ CRLF) body then body else body ++ "." ++ CRLF

/-- `GopherRequestHandler.handle` from the received bytes on:
`selector = data.decode("utf-8", errors="replace").strip()`, then the steps
of `handleSel` against the module store `PAGES`.  The decode step is
threaded through `Except` to record that a decoding failure would fail the
request (in replace mode it never does). -/
def handle (host : String) (port : Nat) (data : List Nat) : Except Unit String :=
  match decodeUtf8 true data with
  | .error e => .error e
  | .ok s => handleSel PAGES host port (pyStrip s)

/-- State-passing form of `handle`: the handler's only interaction with the
content store is the read `PAGES.get(selector)` — it contains no assignment
to the store — so the explicit-state translation returns the store
unchanged alongside the response. -/
def handleState (pages : List (String × String)) (host : String) (port : Nat)
    (data : List Nat) : Except Unit String × List (String × String) :=
  (match decodeUtf8 true data with
   | .error e => .error e
   | .ok s => handleSel pages host port (pyStrip s), pages)

/-- The body carried by an `ok` handler result (empty string on error). -/
def exceptBody : Except Unit String → String
  | .ok s => s
  | .error _ => ""

/-- Whether a handler result is a success. -/
def exceptIsOk : Except Unit String → Bool
  | .ok _ => true
  | .error _ => false

instance : DecidableEq (Except Unit String) := fun a b =>
  match a, b with
  | .error (), .error () => isTrue rfl
  | .error (), .ok _ => isFalse (fun h => Except.noConfusion h)
  | .ok _, .error () => isFalse (fun h => Except.noConfusion h)
  | .ok s, .ok t =>
    if h : s = t then isTrue (by rw [h]) else isFalse (fun he => h (by cases he; rfl))

/-- Python `s.replace(tok, rep)` (leftmost, non-overlapping), via a fuel
argument equal to the input length so that the definition is structurally
recursive; used only to state the substitution contract, with the fuel
instantiated to the length of the scanned list. -/
def replaceFuel (tok rep : List Char) : Nat → List Char → List Char
  | _, [] => []
  | 0, s => s
  | Nat.succ n, c :: rest =>
    if tok.isPrefixOf (c :: rest) && !tok.isEmpty then
      rep ++ replaceFuel tok rep n (List.drop (tok.length - 1) rest)
    else c :: replaceFuel tok rep n rest

/-- Python `s.replace(tok, rep)` on strings. -/
def replaceAll (tok rep s : String) : String :=
  String.mk (replaceFuel tok.data rep.data s.data.length s.data)

/-! ## General lemmas about the string and decoding operations -/

theorem occursIn_iff (pat s : List Char) :
    occursIn pat s = true ↔ ∃ x y, s = x ++ (pat ++ y) := by
  induction s with
  | nil =>
    constructor
    · intro hp
      have hpe : pat = [] := by
        simpa [occursIn, List.isEmpty_iff] using hp
      exact ⟨[], [], by simp [hpe]⟩
    · rintro ⟨x, y, hxy⟩
      rcases List.append_eq_nil.mp hxy.symm with ⟨rfl, h2⟩
      have := (List.append_eq_nil.mp h2).1
      simp [occursIn, this]
  | cons c rest ih =>
    simp only [occursIn, Bool.or_eq_true]
    constructor
    · rintro (hp | ho)
      · rcases List.isPrefixOf_iff_prefix.mp hp with ⟨t, ht⟩
        exact ⟨[], t, by simp [ht.symm]⟩
      · rcases ih.mp ho with ⟨x, y, rfl⟩
        exact ⟨c :: x, y, rfl⟩
    · rintro ⟨x, y, hxy⟩
      cases x with
      | nil =>
        left
        exact List.isPrefixOf_iff_prefix.mpr ⟨y, by simpa using hxy.symm⟩
      | cons a x' =>
        right
        rw [List.cons_append] at hxy
        exact ih.mpr ⟨x', y, (List.cons.injEq .. ▸ hxy).2⟩

theorem strOccurs_iff (pat s : String) :
    strOccurs pat s = true ↔ ∃ x y, s.data = x ++ (pat.data ++ y) :=
  occursIn_iff pat.data s.data

theorem strOccurs_self (p : String) : strOccurs p p = true :=
  (strOccurs_iff p p).mpr ⟨[], [], by simp⟩

theorem strOccurs_append_right (p a b : String) (h : strOccurs p b = true) :
    strOccurs p (a ++ b) = true := by
  rcases (strOccurs_iff p b).mp h with ⟨x, y, hb⟩
  exact (strOccurs_iff p (a ++ b)).mpr ⟨a.data ++ x, y, by simp [String.data_append, hb]⟩

theorem strOccurs_append_left (p a b : String) (h : strOccurs p a = true) :
    strOccurs p (a ++ b) = true := by
  rcases (strOccurs_iff p a).mp h with ⟨x, y, ha⟩
  exact (strOccurs_iff p (a ++ b)).mpr ⟨x, y ++ b.data, by simp [String.data_append, ha]⟩

theorem strEndsWith_iff (t s : String) :
    strEndsWith t s = true ↔ ∃ p, s.data = p ++ t.data := by
  rw [strEndsWith, List.isSuffixOf_iff_suffix]
  constructor
  · rintro ⟨p, hp⟩; exact ⟨p, hp.symm⟩
  · rintro ⟨p, hp⟩; exact ⟨p, hp.symm⟩

theorem strEndsWith_append (t a b : String) (h : strEndsWith t b = true) :
    strEndsWith t (a ++ b) = true := by
  rcases (strEndsWith_iff t b).mp h with ⟨p, hp⟩
  exact (strEndsWith_iff t (a ++ b)).mpr ⟨a.data ++ p, by simp [String.data_append, hp]⟩

theorem noBrace_iff (s : String) :
    noBrace s = true ↔ ∀ c ∈ s.data, c ≠ '{' ∧ c ≠ '}' := by
  simp [noBrace, List.all_eq_true]

theorem noBrace_append (a b : String) :
    noBrace (a ++ b) = (noBrace a && noBrace b) := by
  simp [noBrace, String.data_append, List.all_append]

theorem pyFormatAux_ok_of_noBrace (host portS : String) :
    ∀ cs : List Char, (∀ c ∈ cs, c ≠ '{' ∧ c ≠ '}') →
    pyFormatAux host portS none cs = .ok cs := by
  intro cs h
  induction cs with
  | nil => rfl
  | cons c rest ih =>
    have hc := h c (List.mem_cons_self c rest)
    have hrest : ∀ d ∈ rest, d ≠ '{' ∧ d ≠ '}' := fun d hd => h d (List.mem_cons_of_mem _ hd)
    unfold pyFormatAux
    split <;> simp_all [Except.map]

theorem pyFormat_ok_of_noBrace (host portS s : String) (h : noBrace s = true) :
    pyFormat host portS s = .ok s := by
  rw [pyFormat, pyFormatAux_ok_of_noBrace host portS s.data ((noBrace_iff s).mp h)]
  rfl

theorem decodeStep_replace_ok (b : Nat) (rest : List Nat) :
    ∃ c r2, decodeStep true b rest = .ok (c, r2) := by
  unfold decodeStep
  repeat' split
  all_goals first
    | exact ⟨_, _, rfl⟩
    | (rename_i hcontra; exact absurd rfl hcontra)

set_option linter.unusedTactic false in
theorem decodeStep_length {re : Bool} {b : Nat} {rest : List Nat} {c : Char} {r2 : List Nat}
    (h : decodeStep re b rest = .ok (c, r2)) : r2.length ≤ rest.length := by
  unfold decodeStep at h
  repeat' split at h
  all_goals first
    | (cases h; simp_all <;> omega)
    | (cases h; omega)
    | simp_all

theorem decodeFuel_replace_ok :
    ∀ (n : Nat) (bs : List Nat), bs.length ≤ n →
    ∃ cs, decodeUtf8Fuel true n bs = .ok cs := by
  intro n
  induction n with
  | zero =>
    intro bs h
    have : bs = [] := List.length_eq_zero.mp (Nat.le_zero.mp h)
    subst this
    exact ⟨[], rfl⟩
  | succ n ih =>
    intro bs h
    cases bs with
    | nil => exact ⟨[], rfl⟩
    | cons b rest =>
      obtain ⟨c, r2, hstep⟩ := decodeStep_replace_ok b rest
      have hlen : r2.length ≤ n := by
        have := decodeStep_length hstep
        simp only [List.length_cons] at h
        omega
      obtain ⟨cs, hcs⟩ := ih r2 hlen
      rw [decodeUtf8Fuel, hstep]
      refine ⟨c :: cs, ?_⟩
      simp [hcs, Except.map]

theorem decode_replace_ok (bs : List Nat) :
    ∃ s, decodeUtf8 true bs = .ok s := by
  obtain ⟨cs, hcs⟩ := decodeFuel_replace_ok bs.length bs (Nat.le_refl _)
  rw [decodeUtf8, hcs]
  exact ⟨String.mk cs, rfl⟩

/-! ## The claims -/

/-- C1 (amended).  For every selector that is unknown after stripping and
root normalization and that contains no brace characters, `handle` succeeds
and returns the synthesized not-found body: it contains the error header
marker `404`, echoes the selector verbatim (or `/` if it was empty), and
contains the hint to return to the root selector.  (The brace-freedom
hypothesis is forced: the handler pipes the echoed selector through
`str.format`, so brace characters in an unknown selector reach the
formatter — see the counterexample.) -/
theorem claim_C1 (host : String) (port : Nat) (S : String)
    (hu : storeGet PAGES (normalizeSel S) = none) (hb : noBrace S = true) :
    ∃ b, handleSel PAGES host port S = .ok b ∧
      strOccurs ("404") b = true ∧
      strOccurs ("Requested selector: " ++ (if S = "" then "/" else S)) b = true ∧
      strOccurs ("Return to \x27/\x27 for the main menu.") b = true := by
  have h1 : S ≠ "" := by
    rintro rfl
    exact absurd hu (by decide)
  have h2 : S ≠ "/" := by
    rintro rfl
    exact absurd hu (by decide)
  have hnorm : normalizeSel S = S := by simp [normalizeSel, h1, h2]
  rw [hnorm] at hu
  have hsel : handleSel PAGES host port S =
      (pyFormat host (toString port) (notFoundPage S)).map
        (fun body => if strEndsWith ("." ++ CRLF) body then body else body ++ "." ++ CRLF) := by
    simp only [handleSel, hnorm, hu, Option.getD_none]
  have hnf : notFoundPage S =
      ("404 - selector not found" ++ CRLF ++ "" ++ CRLF ++
        ("Requested selector: " ++ S) ++ CRLF) ++
      ("Return to \x27/\x27 for the main menu." ++ CRLF) := by
    simp [notFoundPage, text_page, joinSep, if_neg h1, String.append_assoc]
  have hnb : noBrace (notFoundPage S) = true := by
    rw [hnf]
    simp only [noBrace_append, Bool.and_eq_true, hb]
    decide
  have hfmt := pyFormat_ok_of_noBrace host (toString port) _ hnb
  have hend : strEndsWith ("." ++ CRLF) (notFoundPage S) = true := by
    rw [hnf]
    exact strEndsWith_append _ _ _ (by decide)
  rw [hsel, hfmt]
  refine ⟨notFoundPage S, ?_, ?_, ?_, ?_⟩
  · simp [Except.map, hend]
  · rw [hnf]
    repeat apply strOccurs_append_left
    decide
  · rw [hnf]
    simp only [if_neg h1]
    apply strOccurs_append_left
    apply strOccurs_append_left
    apply strOccurs_append_right
    exact strOccurs_self _
  · rw [hnf]
    apply strOccurs_append_right
    apply strOccurs_append_left
    exact strOccurs_self _

/-- C1, witness: the amended claim instantiated at the unknown selector
`/nonexistent` on a server at `127.0.0.1:7070`. -/
theorem claim_C1_witness :
    ∃ b, handleSel PAGES ("127.0.0.1") 7070 ("/nonexistent") = .ok b ∧
      strOccurs ("404") b = true ∧
      strOccurs ("Requested selector: " ++
        (if ("/nonexistent" : String) = "" then "/" else "/nonexistent")) b = true ∧
      strOccurs ("Return to \x27/\x27 for the main menu.") b = true :=
  claim_C1 ("127.0.0.1") 7070 ("/nonexistent") (by decide) (by decide)

/-- C1, counterexample to the claim as stated: the request `/{x}` (CRLF
terminated) is an unknown selector, yet `handle` fails the connection —
`str.format` raises on the brace field embedded in the echoed selector —
instead of returning a not-found body. -/
theorem claim_C1_counterexample :
    storeGet PAGES (normalizeSel (pyStrip
      (exceptBody (decodeUtf8 true [47, 123, 120, 125, 13, 10])))) = none ∧
    handle ("127.0.0.1") 7070 [47, 123, 120, 125, 13, 10] = .error () := by
  decide

/-- C2 (code bug).  For the known selector `/about` the response body does
not end with a lone-dot terminator line: the page's last content line ends
with a period, so `body.endswith(".\r\n")` is already true and the handler
sends the page unchanged, with no `CRLF ++ "." ++ CRLF` terminator at the
end (and none anywhere in the body). -/
theorem claim_C2_bug :
    (storeGet PAGES ("/about")).isSome = true ∧
    exceptIsOk (handleSel PAGES ("127.0.0.1") 7070 ("/about")) = true ∧
    strEndsWith ("." ++ CRLF) (exceptBody (handleSel PAGES ("127.0.0.1") 7070 ("/about"))) = true ∧
    strEndsWith (CRLF ++ "." ++ CRLF)
      (exceptBody (handleSel PAGES ("127.0.0.1") 7070 ("/about"))) = false := by
  decide

/-- C3 (amended).  The handler appends the terminator line exactly when the
substituted body does not already end with `"." ++ CRLF`; when the body does
end that way — even because an ordinary content line merely ends with a
period — nothing is appended. -/
theorem claim_C3 (host : String) (port : Nat) (S fb : String)
    (h : pyFormat host (toString port)
        ((storeGet PAGES (normalizeSel S)).getD (notFoundPage (normalizeSel S))) = .ok fb) :
    handleSel PAGES host port S =
      .ok (if strEndsWith ("." ++ CRLF) fb then fb else fb ++ "." ++ CRLF) := by
  simp only [handleSel, h, Except.map]

/-- C3, witness: the amended claim instantiated at the selector
`/tutorial/outcome`, whose substituted body already ends with `"." ++ CRLF`. -/
theorem claim_C3_witness :
    handleSel PAGES ("127.0.0.1") 7070 ("/tutorial/outcome") =
      .ok (if strEndsWith ("." ++ CRLF) ((storeGet PAGES ("/tutorial/outcome")).getD ("")) then
        (storeGet PAGES ("/tutorial/outcome")).getD ("")
      else (storeGet PAGES ("/tutorial/outcome")).getD ("") ++ "." ++ CRLF) :=
  claim_C3 ("127.0.0.1") 7070 ("/tutorial/outcome")
    ((storeGet PAGES ("/tutorial/outcome")).getD ("")) (by decide)

/-- C3, counterexample to the claim as stated: for `/tutorial/outcome` the
substituted body ends with CRLF, so an appended terminator line would leave
the response ending in `CRLF ++ "." ++ CRLF`; the actual response is not the
body plus a terminator and does not end in a terminator line — `handle` did
not append. -/
theorem claim_C3_counterexample :
    strEndsWith CRLF (exceptBody (pyFormat ("127.0.0.1") (toString 7070)
      ((storeGet PAGES ("/tutorial/outcome")).getD ("")))) = true ∧
    exceptBody (handleSel PAGES ("127.0.0.1") 7070 ("/tutorial/outcome")) ≠
      exceptBody (pyFormat ("127.0.0.1") (toString 7070)
        ((storeGet PAGES ("/tutorial/outcome")).getD (""))) ++ "." ++ CRLF ∧
    strEndsWith (CRLF ++ "." ++ CRLF)
      (exceptBody (handleSel PAGES ("127.0.0.1") 7070 ("/tutorial/outcome"))) = false := by
  decide

/-- C4.  For a server bound to `("127.0.0.1", 7070)`, each menu response
body equals the stored page with every `{host}` replaced by `127.0.0.1` and
every `{port}` replaced by `7070` (plus the appended terminator line), and
neither placeholder token occurs anywhere in the body sent to the client. -/
theorem claim_C4 :
    (["", "/tutorial", "/rewrite"].all fun sel =>
      match handleSel PAGES ("127.0.0.1") 7070 sel, storeGet PAGES sel with
      | .ok b, some payload =>
        (b == replaceAll ("{port}") ("7070") (replaceAll ("{host}") ("127.0.0.1") payload)
            ++ "." ++ CRLF)
          && !(strOccurs ("{host}") b) && !(strOccurs ("{port}") b)
      | _, _ => false) = true := by
  decide

/-- C5.  Root normalization: for any server address, the response for the
empty selector and the response for the selector `/` are identical. -/
theorem claim_C5 (host : String) (port : Nat) :
    handleSel PAGES host port ("") = handleSel PAGES host port ("/") := rfl

/-- C6 (amended).  For every nonempty item list, `menu_page` renders one
line per item, in order, each line being the item's type character, display
text, a tab, its selector, a tab, the host placeholder, a tab and the port
placeholder, with every line (including the last) followed by CRLF.  (For
the empty list `menu_page` returns a single CRLF — one empty line — rather
than the empty rendering, which is the counterexample to the claim over all
sequences.) -/
theorem claim_C6 : ∀ items : List MenuItem, items ≠ [] →
    (menu_page items).data = (items.map fun it => (menuLine it).data ++ CRLF.data).flatten := by
  intro items hne
  induction items with
  | nil => exact absurd rfl hne
  | cons x xs ih =>
    cases xs with
    | nil => simp [menu_page, joinSep, menuLine, String.data_append]
    | cons y ys =>
      have hys := ih (by simp)
      simp only [menu_page, joinSep, List.map_cons, String.data_append, List.flatten,
        List.append_assoc] at hys ⊢
      simp [menuLine, String.data_append, List.append_assoc, hys]

/-- C6, witness: the amended claim instantiated at a one-item menu. -/
theorem claim_C6_witness :
    (menu_page [MenuItem.mk ("1") ("Start with the tutorial") ("/tutorial")]).data =
      ([MenuItem.mk ("1") ("Start with the tutorial") ("/tutorial")].map
        fun it => (menuLine it).data ++ CRLF.data).flatten :=
  claim_C6 [MenuItem.mk ("1") ("Start with the tutorial") ("/tutorial")] (by decide)

/-- C6, counterexample to the claim as stated: for the empty sequence of
items `menu_page` does not render one line per item — it renders a lone
CRLF instead of the empty string. -/
theorem claim_C6_counterexample :
    ¬ ((menu_page []).data =
      (([] : List MenuItem).map fun it => (menuLine it).data ++ CRLF.data).flatten) := by
  decide

/-- C7.  Lenient decoding is total: for every received byte string, the
decoding step of `handle` (UTF-8 with `errors="replace"`) succeeds, and
`handle` proceeds with the decoded, stripped selector — malformed input
never fails the request at the decoding step. -/
theorem claim_C7 (bs : List Nat) :
    ∃ s, decodeUtf8 true bs = .ok s ∧
      ∀ (host : String) (port : Nat),
        handle host port bs = handleSel PAGES host port (pyStrip s) := by
  obtain ⟨s, hs⟩ := decode_replace_ok bs
  refine ⟨s, hs, fun host port => ?_⟩
  unfold handle
  rw [hs]

/-- C8.  Determinism and absence of store mutation: the handler leaves the
content store unchanged, and a second invocation with the same request on
the resulting store produces the identical response. -/
theorem claim_C8 (host : String) (port : Nat) (data : List Nat) :
    (handleState PAGES host port data).2 = PAGES ∧
    (handleState ((handleState PAGES host port data).2) host port data).1 =
      (handleState PAGES host port data).1 :=
  ⟨rfl, rfl⟩

/-- C9.  The request consisting of CRLF alone (empty selector) succeeds and
returns the root menu: the body contains the line starting
`1Start with the tutorial` + tab + `/tutorial` + tab, and ends with
`"." ++ CRLF`. -/
theorem claim_C9 :
    exceptIsOk (handle ("127.0.0.1") 7070 [13, 10]) = true ∧
    strOccurs (CRLF ++ "1Start with the tutorial\t/tutorial\t")
      (exceptBody (handle ("127.0.0.1") 7070 [13, 10])) = true ∧
    strEndsWith ("." ++ CRLF) (exceptBody (handle ("127.0.0.1") 7070 [13, 10])) = true := by
  decide

/-- C10.  Internal-link closure: each of the three menu pages of the store
is the rendering of its item list, and every item of type `0` or `1` in any
of them has a selector that, after root normalization, is a key of the
content store. -/
theorem claim_C10 :
    (MENUS.all fun m =>
      (storeGet PAGES m.1 == some (menu_page m.2)) &&
      m.2.all fun it =>
        !(it.item_type == "0" || it.item_type == "1") ||
        (storeGet PAGES (normalizeSel it.selector)).isSome) = true := by
  decide
